import Mathlib

/-!
Verification of the fishtest worker (`worker/worker.py`) task lifecycle
engine.  The Python source is shallowly embedded: every definition below
mirrors a function or code region of `worker.py` (the doc comment names
it).  Machine-level and OS-level primitives (file system, HTTP, clock)
are passed in explicitly as parameters, so that each embedded function is
a pure, executable Lean function.
-/

namespace Fishtest

/-- `WORKER_VERSION = 286` (worker.py line 76). -/
def WORKER_VERSION : Nat := 286

/-- `FILE_LIST = ["updater.py", "worker.py", "games.py"]` (worker.py line 77). -/
def FILE_LIST : List String := ["updater.py", "worker.py", "games.py"]

/-- `INITIAL_RETRY_TIME = 15.0` seconds (worker.py line 79); the value is
integral so we work in `Nat` seconds. -/
def INITIAL_RETRY_TIME : Nat := 15

/-- `MAX_RETRY_TIME = 900.0` seconds (worker.py line 81). -/
def MAX_RETRY_TIME : Nat := 900

/-- Python's substring test `"MAX" in x`, on the character list of `x`. -/
def hasMAXAux : List Char → Bool
  | 'M' :: 'A' :: 'X' :: _ => true
  | _ :: rest => hasMAXAux rest
  | [] => false

/-- `"MAX" in x` for a string `x`. -/
def hasMAX (x : String) : Bool := hasMAXAux x.data

/-- The validation in `_concurrency.__call__` (worker.py lines 197-220).
The external `Expression_Parser` is abstracted: `ret` is the (rounded,
integral) value the user expression `x` parses to; a parse failure simply
never reaches the checks modelled here.  Returns `some` accepted
concurrency, or `none` when the code raises `ValueError`. -/
def concurrency_check (MAX : Int) (x : String) (ret : Int) : Option Int :=
  if ret ≤ 0 then none
  else if (¬ hasMAX x ∧ MAX ≤ ret) ∨ MAX < ret then none
  else some ret

/-- The clamping rule exactly as the spec's words state it (claim C1):
accepted value is `v` if the expression contains "MAX" and `v ≤ MAX`,
else `min v (MAX-1)`; invalid when `v ≤ 0` or `v > MAX`.  This definition
follows the SPEC, not the source; it is compared against
`concurrency_check`. -/
def concurrency_claimed (MAX : Int) (x : String) (v : Int) : Option Int :=
  if v ≤ 0 ∨ MAX < v then none
  else if hasMAX x ∧ v ≤ MAX then some v
  else some (min v (MAX - 1))

/-- C1 (counterexample): with `MAX = 8` CPUs, the expression `"8"` parses
to `v = 8`; it does not contain "MAX" and `v ≤ MAX`, so the claim accepts
concurrency `min 8 (8-1) = 7`, but the code raises `ValueError`
(worker.py line 211: `ret >= self.MAX` with "MAX" absent). -/
theorem c1_counterexample :
    concurrency_check 8 "8" 8 = none ∧ concurrency_claimed 8 "8" 8 = some 7 := by
  decide

/-- C1 (amended): the accepted concurrency is exactly the parsed value
`ret` — it is never clamped; the expression is rejected when `ret ≤ 0`,
when `ret > MAX`, or when the expression does not textually contain
"MAX" and `ret ≥ MAX` (worker.py lines 197-220). -/
theorem c1_amended (MAX ret : Int) (x : String) :
    concurrency_check MAX x ret =
      if ret ≤ 0 ∨ MAX < ret ∨ (hasMAX x = false ∧ MAX ≤ ret) then none
      else some ret := by
  unfold concurrency_check
  rcases h : hasMAX x <;> split_ifs <;> simp_all <;> omega

/-- The frame-selection loop of `get_exception` (worker.py lines 1146-1158):
starting from the first traceback frame, keep walking while the next
frame's file name is still one of `files`; the message is built from the
last frame reached.  A frame is a `(file name, line number)` pair. -/
def choose_frame (files : List String) (cur : String × Nat) :
    List (String × Nat) → String × Nat
  | [] => cur
  | next :: rest => if next.1 ∈ files then choose_frame files next rest else cur

/-- The message format of `get_exception` (worker.py line 1150). -/
def exc_message (excType : String) (frame : String × Nat) : String :=
  "Exception " ++ excType ++ " at " ++ frame.1 ++ ":" ++ toString frame.2 ++
    " WorkerVersion: " ++ toString WORKER_VERSION

/-- `get_exception(files)` (worker.py lines 1145-1159).  The traceback is
abstracted as the exception type's name together with a nonempty list of
frames `tb0 :: tb` (`extract_tb`, outermost first); the walk only starts
when the first frame belongs to `files`. -/
def get_exception (files : List String) (excType : String)
    (tb0 : String × Nat) (tb : List (String × Nat)) : String :=
  exc_message excType (if tb0.1 ∈ files then choose_frame files tb0 tb else tb0)

/-- Outcome of `run_games` as observed by the `try` block of
`fetch_and_handle_task` (worker.py lines 1324-1351): normal return, or
one of the three domain exceptions, or an arbitrary other exception
(carrying its type name and traceback frames). -/
inductive RunResult where
  | ok
  | fatal (msg : String)
  | runFailure (msg : String)
  | workerFailure (msg : String)
  | other (excType : String) (tb0 : String × Nat) (tb : List (String × Nat))

/-- What `fetch_and_handle_task` decides after `run_games` returns or
raises (worker.py lines 1318-1362): whether the iteration succeeded, the
value of `current_state["alive"]` afterwards, the endpoint `api` a
failure is reported to, and the `message` field sent to the server. -/
structure TaskReport where
  success : Bool
  alive : Bool
  api : String
  serverMessage : String
deriving DecidableEq

/-- The exception dispatch of `fetch_and_handle_task` (worker.py lines
1318-1362).  `alive` is the value of `current_state["alive"]` on entry;
`api` starts as `remote + "/api/failed_task"` and is changed only by
`RunException`. -/
def handle_run_result (remote : String) (alive : Bool) : RunResult → TaskReport
  | .ok => ⟨true, alive, remote ++ "/api/failed_task", ""⟩
  | .fatal m => ⟨false, false, remote ++ "/api/failed_task", m⟩
  | .runFailure m => ⟨false, alive, remote ++ "/api/stop_run", m⟩
  | .workerFailure m => ⟨false, alive, remote ++ "/api/failed_task", m⟩
  | .other ty tb0 tb =>
      ⟨false, false, remote ++ "/api/failed_task",
        get_exception ["worker.py", "games.py"] ty tb0 tb⟩

/-- The frame chosen by `choose_frame` is one of the supplied frames. -/
theorem choose_frame_mem (files : List String) (cur : String × Nat)
    (tb : List (String × Nat)) : choose_frame files cur tb ∈ cur :: tb := by
  induction tb generalizing cur with
  | nil => simp [choose_frame]
  | cons next rest ih =>
      simp only [choose_frame]
      split
      · have := ih next
        rcases List.mem_cons.mp this with h | h
        · simp [h]
        · simp [List.mem_cons, h]
      · simp

/-- C3: the termination report endpoint is determined exactly by the
exception kind (worker.py lines 1318-1362): `FatalException` clears
`alive` and reports to `/api/failed_task`; `RunException` reports to
`/api/stop_run` (alive untouched); `WorkerException` reports to
`/api/failed_task` without clearing `alive`; any other exception reports
to `/api/failed_task`, clears `alive`, and its server message is
synthesized from the exception type, a source location taken from the
traceback, and the worker version. -/
theorem c3_exception_dispatch (remote : String) (alive : Bool) :
    (∀ m, handle_run_result remote alive (.fatal m) =
        ⟨false, false, remote ++ "/api/failed_task", m⟩) ∧
    (∀ m, handle_run_result remote alive (.runFailure m) =
        ⟨false, alive, remote ++ "/api/stop_run", m⟩) ∧
    (∀ m, handle_run_result remote alive (.workerFailure m) =
        ⟨false, alive, remote ++ "/api/failed_task", m⟩) ∧
    (∀ ty tb0 tb,
      (handle_run_result remote alive (.other ty tb0 tb)).success = false ∧
      (handle_run_result remote alive (.other ty tb0 tb)).alive = false ∧
      (handle_run_result remote alive (.other ty tb0 tb)).api =
        remote ++ "/api/failed_task" ∧
      ∃ frame ∈ tb0 :: tb,
        (handle_run_result remote alive (.other ty tb0 tb)).serverMessage =
          "Exception " ++ ty ++ " at " ++ frame.1 ++ ":" ++
            toString frame.2 ++ " WorkerVersion: " ++ toString WORKER_VERSION) := by
  refine ⟨fun m => rfl, fun m => rfl, fun m => rfl, fun ty tb0 tb => ⟨rfl, rfl, rfl, ?_⟩⟩
  simp only [handle_run_result, get_exception, exc_message]
  split
  · exact ⟨choose_frame ["worker.py", "games.py"] tb0 tb,
      choose_frame_mem _ _ _, rfl⟩
  · exact ⟨tb0, List.mem_cons_self _ _, rfl⟩

/-- The shared state read and written by the heartbeat loop (worker.py
lines 1451-1458 and 1162-1193).  Times are in whole seconds;
`lastUpdated` is `current_state["last_updated"]`, `run` holds the current
run's `_id` and `taskId` the current task id. -/
structure HBState where
  alive : Bool
  lastUpdated : Nat
  run : Option String
  taskId : Option Nat
deriving DecidableEq

/-- A decoded `/api/beat` response: `hasError` is the presence of the
`"error"` key, `taskAlive` the value of `"task_alive"` (default `true`). -/
structure BeatResp where
  hasError : Bool
  taskAlive : Bool
deriving DecidableEq

/-- One iteration of the heartbeat `while` body after the 1-second sleep
(worker.py lines 1169-1191).  `now` is the wall clock at the top of the
iteration; `resp = none` models an exception while POSTing the beat.
Returns the new state and whether a beat was sent. -/
def hb_tick (s : HBState) (now : Nat) (resp : Option BeatResp) :
    HBState × Bool :=
  if s.lastUpdated + 120 < now then
    match s.run, s.taskId with
    | some _, some _ =>
        match resp with
        | none => ({ s with lastUpdated := now }, true)
        | some resp =>
            if resp.hasError then ({ s with lastUpdated := now }, true)
            else if resp.taskAlive then ({ s with lastUpdated := now }, true)
            else ({ s with lastUpdated := now, run := none, taskId := none }, true)
    | _, _ => ({ s with lastUpdated := now }, false)
  else (s, false)

/-- The heartbeat loop (worker.py lines 1168-1191) run for
`resps.length` iterations, one per second starting right after time
`start`; stops early when `alive` is false.  Returns the final state and
the number of beats sent. -/
def hb_run (s : HBState) (start : Nat) : List (Option BeatResp) → HBState × Nat
  | [] => (s, 0)
  | r :: rs =>
      if s.alive then
        ((hb_run (hb_tick s (start + 1) r).1 (start + 1) rs).1,
          (if (hb_tick s (start + 1) r).2 then 1 else 0) +
            (hb_run (hb_tick s (start + 1) r).1 (start + 1) rs).2)
      else (s, 0)

/-- A beat response (or beat-send failure) that does not make the
heartbeat loop drop the task: anything except a successful response
carrying `task_alive = false`. -/
def keepsTask : Option BeatResp → Bool
  | none => true
  | some b => b.hasError || b.taskAlive

/-- The heartbeat loop never modifies `alive` (worker.py lines 1168-1191
only read it). -/
theorem hb_tick_alive (s : HBState) (now : Nat) (r : Option BeatResp) :
    (hb_tick s now r).1.alive = s.alive := by
  unfold hb_tick
  rcases r with _ | b <;> rcases hr : s.run <;> rcases ht : s.taskId <;>
    simp [hr, ht] <;> split_ifs <;> rfl

/-- With no active task the tick advances nothing but the timestamp:
the task stays dropped and no beat is sent. -/
theorem hb_tick_no_task (s : HBState) (now : Nat) (r : Option BeatResp)
    (h : s.taskId = none) :
    (hb_tick s now r).1.taskId = none ∧ (hb_tick s now r).2 = false := by
  unfold hb_tick
  rcases hr : s.run <;> simp [hr, h] <;> split_ifs <;> simp [h]

/-- When the 120-second trigger does not fire, the tick is a no-op. -/
theorem hb_tick_stale (s : HBState) (now : Nat) (r : Option BeatResp)
    (h : ¬ s.lastUpdated + 120 < now) : hb_tick s now r = (s, false) := by
  unfold hb_tick
  simp [h]

/-- When the trigger fires and a task is active, a beat is sent. -/
theorem hb_tick_beats (s : HBState) (now : Nat) (r : Option BeatResp)
    (h : s.lastUpdated + 120 < now) (hr : s.run ≠ none) (ht : s.taskId ≠ none) :
    (hb_tick s now r).2 = true := by
  obtain ⟨ru, hru⟩ := Option.ne_none_iff_exists'.mp hr
  obtain ⟨ti, hti⟩ := Option.ne_none_iff_exists'.mp ht
  unfold hb_tick
  rcases r with _ | b <;> simp [h, hru, hti] <;> split_ifs <;> simp

/-- Without a current run the beat is skipped (worker.py lines 1178-1180). -/
theorem hb_tick_no_run (s : HBState) (now : Nat) (r : Option BeatResp)
    (h : s.run = none) : (hb_tick s now r).2 = false := by
  unfold hb_tick
  simp [h]
  split_ifs <;> simp

/-- A heartbeat loop that starts with no active task sends no beats. -/
theorem hb_run_no_task (rs : List (Option BeatResp)) (s : HBState) (start : Nat)
    (h : s.taskId = none) : (hb_run s start rs).2 = 0 := by
  induction rs generalizing s start with
  | nil => rfl
  | cons r rest ih =>
      unfold hb_run
      by_cases ha : s.alive
      · simp [ha, (hb_tick_no_task s (start + 1) r h).2,
          ih _ _ (hb_tick_no_task s (start + 1) r h).1]
      · simp [ha]

/-- If an active heartbeat loop sends no beat during a window of ticks,
every tick of the window happened no later than 120 seconds past
`lastUpdated` (and the state never changed). -/
theorem hb_run_quiet_bound (rs : List (Option BeatResp)) (s : HBState)
    (start : Nat) (ha : s.alive = true) (hr : s.run ≠ none)
    (ht : s.taskId ≠ none) (h0 : (hb_run s start rs).2 = 0) :
    ∀ j < rs.length, start + j + 1 ≤ s.lastUpdated + 120 := by
  induction rs generalizing s start with
  | nil => intro j hj; simp at hj
  | cons r rest ih =>
      intro j hj
      unfold hb_run at h0
      rw [if_pos ha] at h0
      have hbeat : (hb_tick s (start + 1) r).2 = false := by
        rcases hb : (hb_tick s (start + 1) r).2
        · rfl
        · rw [hb] at h0; simp only [if_true] at h0; omega
      have htr : ¬ s.lastUpdated + 120 < start + 1 := by
        intro hlt
        have := hb_tick_beats s (start + 1) r hlt hr ht
        rw [this] at hbeat
        exact Bool.noConfusion hbeat
      rw [hb_tick_stale s (start + 1) r htr] at h0
      simp only [if_false] at h0
      cases j with
      | zero => omega
      | succ j' =>
          have := ih s (start + 1) ha hr ht (by omega) j' (by simpa using hj)
          omega

/-- C5: the heartbeat loop wakes every second; a beat is sent only when
more than 120 seconds have passed since `last_updated` and a task is
active; with no active task zero beats are emitted; with a task active
at the start of any 121-tick window at least one beat (or the drop that
a beat provokes) occurs in the window; and a successful beat response
carrying `task_alive = false` drops the task: both `run` and `task_id`
become `none` (worker.py lines 1162-1193). -/
theorem c5_heartbeat :
    (∀ (s : HBState) (now : Nat) (r : Option BeatResp),
      (hb_tick s now r).2 = true →
        s.lastUpdated + 120 < now ∧ s.run ≠ none ∧ s.taskId ≠ none) ∧
    (∀ (s : HBState) (start : Nat) (rs : List (Option BeatResp)),
      s.taskId = none → (hb_run s start rs).2 = 0) ∧
    (∀ (s : HBState) (start : Nat) (rs : List (Option BeatResp)),
      s.alive = true → s.run ≠ none → s.taskId ≠ none →
      s.lastUpdated ≤ start → rs.length = 121 → 1 ≤ (hb_run s start rs).2) ∧
    (∀ (s : HBState) (now : Nat) (b : BeatResp),
      s.lastUpdated + 120 < now → s.run ≠ none → s.taskId ≠ none →
      b.hasError = false → b.taskAlive = false →
      (hb_tick s now (some b)).1.run = none ∧
        (hb_tick s now (some b)).1.taskId = none) := by
  refine ⟨?_, ?_, ?_, ?_⟩
  · intro s now r hb
    by_cases h : s.lastUpdated + 120 < now
    · refine ⟨h, ?_, ?_⟩
      · intro hrn
        rw [hb_tick_no_run s now r hrn] at hb
        exact Bool.noConfusion hb
      · intro htn
        rw [(hb_tick_no_task s now r htn).2] at hb
        exact Bool.noConfusion hb
    · rw [hb_tick_stale s now r h] at hb
      exact Bool.noConfusion hb
  · intro s start rs h
    exact hb_run_no_task rs s start h
  · intro s start rs ha hr ht hle hlen
    by_contra hc
    have h0 : (hb_run s start rs).2 = 0 := by omega
    have := hb_run_quiet_bound rs s start ha hr ht h0 120 (by omega)
    omega
  · intro s now b h hr ht hbe hba
    obtain ⟨ru, hru⟩ := Option.ne_none_iff_exists'.mp hr
    obtain ⟨ti, hti⟩ := Option.ne_none_iff_exists'.mp ht
    unfold hb_tick
    simp [h, hru, hti, hbe, hba]

/-- C5 witness: concrete instances of each conjunct of `c5_heartbeat`. -/
theorem c5_heartbeat_witness :
    ((⟨true, 0, some "R", some 3⟩ : HBState).lastUpdated + 120 < 121 ∧
      (⟨true, 0, some "R", some 3⟩ : HBState).run ≠ none ∧
      (⟨true, 0, some "R", some 3⟩ : HBState).taskId ≠ none) ∧
    (hb_run ⟨true, 0, some "R", none⟩ 0 [none]).2 = 0 ∧
    1 ≤ (hb_run ⟨true, 0, some "R", some 3⟩ 0 (List.replicate 121 none)).2 ∧
    ((hb_tick ⟨true, 0, some "R", some 3⟩ 121 (some ⟨false, false⟩)).1.run = none ∧
      (hb_tick ⟨true, 0, some "R", some 3⟩ 121 (some ⟨false, false⟩)).1.taskId = none) :=
  ⟨c5_heartbeat.1 _ 121 none (by decide),
   c5_heartbeat.2.1 _ 0 [none] rfl,
   c5_heartbeat.2.2.1 _ 0 _ rfl (by decide) (by decide) (by decide) (by simp),
   c5_heartbeat.2.2.2 _ 121 ⟨false, false⟩ (by decide) (by decide) (by decide) rfl rfl⟩

/-- C10: whenever the heartbeat loop observes that more than 120 seconds
have passed, it advances `last_updated` to `now` *before* checking
whether a task is active (worker.py line 1173 precedes lines 1174-1180),
so the timestamp advances even on ticks that send no beat; and no beat
can be sent until more than 120 seconds after the most recent advance,
so a freshly assigned task gets its first beat only then. -/
theorem c10_timestamp_advances_without_beat :
    (∀ (s : HBState) (now : Nat) (r : Option BeatResp),
      s.lastUpdated + 120 < now → s.taskId = none →
        hb_tick s now r = ({ s with lastUpdated := now }, false)) ∧
    (∀ (s : HBState) (now : Nat) (r : Option BeatResp),
      now ≤ s.lastUpdated + 120 → (hb_tick s now r).2 = false) := by
  constructor
  · intro s now r h ht
    unfold hb_tick
    rcases hr : s.run <;> simp [h, ht, hr]
  · intro s now r h
    rw [hb_tick_stale s now r (by omega)]

/-- C10 witness: a tick at time 121 with `last_updated = 0` and no task
advances the timestamp without beating; afterwards no beat can occur up
to time 241. -/
theorem c10_witness :
    hb_tick ⟨true, 0, some "R", none⟩ 121 none =
      ({ alive := true, lastUpdated := 121, run := some "R", taskId := none }, false) ∧
    (hb_tick ⟨true, 121, some "R", some 3⟩ 241 none).2 = false :=
  ⟨c10_timestamp_advances_without_beat.1 _ 121 none (by decide) rfl,
   c10_timestamp_advances_without_beat.2 _ 241 none (by decide)⟩

/-- What one call to `fetch_and_handle_task` plus the sentinel check
contributes to the main loop (worker.py lines 1572-1599): whether the
iteration succeeded, whether it cleared `current_state["alive"]`
(signal, `FatalException`, failed version check, unknown exception), and
whether the `fish.exit` sentinel file is present afterwards. -/
structure IterInput where
  success : Bool
  clearsAlive : Bool
  fishExitPresent : Bool

/-- The mutable state of the main loop (worker.py lines 1569-1599):
`delay` is the current backoff in seconds. -/
structure MainState where
  alive : Bool
  delay : Nat

/-- Result of running the main loop and the epilogue of `worker()`
(worker.py lines 1572-1611): `exitCode` is `worker()`'s return value
(`none` when the supplied iteration list is exhausted with the loop
still running), `slept` the successive backoff delays passed to
`safe_sleep`, and `sentinelStop` whether the loop stopped via the
`fish.exit` sentinel (which is then deleted, lines 1601-1603). -/
structure LoopResult where
  exitCode : Option Nat
  slept : List Nat
  sentinelStop : Bool
deriving DecidableEq

/-- The main `while` loop of `worker()` together with its epilogue
(worker.py lines 1569-1611), driven by one `IterInput` per iteration. -/
def mainLoop (fleet : Bool) : MainState → List IterInput → LoopResult
  | s, its =>
      if s.alive then
        match its with
        | [] => ⟨none, [], false⟩
        | it :: rest =>
            if it.fishExitPresent then ⟨some 0, [], true⟩
            else if it.clearsAlive then ⟨some 1, [], false⟩
            else if it.success then
              let r := mainLoop fleet ⟨true, INITIAL_RETRY_TIME⟩ rest
              ⟨r.exitCode, r.slept, r.sentinelStop⟩
            else if fleet then ⟨some 1, [], false⟩
            else
              let r := mainLoop fleet ⟨true, min MAX_RETRY_TIME (2 * s.delay)⟩ rest
              ⟨r.exitCode, s.delay :: r.slept, r.sentinelStop⟩
      else ⟨some 1, [], false⟩

/-- The environment `worker()` meets before the main loop (worker.py
lines 1424-1570): whether the process-lock acquisition timed out,
whether `setup_parameters` succeeded, the `only_config` and `fleet`
options, the outcome of the startup `verify_worker_version` call
(`none` models a raised exception, otherwise the function's
`Option Bool` result), the toolchain and fastchess checks, and the
result of `verify_remote_sri`. -/
structure StartupEnv where
  lockBlocked : Bool
  optionsOk : Bool
  onlyConfig : Bool
  fleet : Bool
  versionCheck : Option (Option Bool)
  toolchainOk : Bool
  fastchessOk : Bool
  remoteSri : Option Bool

/-- `worker()` (worker.py lines 1424-1611): the startup gates in source
order, then the main loop. -/
def worker_run (env : StartupEnv) (its : List IterInput) : LoopResult :=
  if env.lockBlocked then ⟨some 1, [], false⟩
  else if ¬ env.optionsOk then ⟨some 1, [], false⟩
  else if env.onlyConfig then ⟨some 0, [], false⟩
  else
    match env.versionCheck with
    | none => ⟨some 1, [], false⟩
    | some v =>
        if v = some false then ⟨some 1, [], false⟩
        else if ¬ env.toolchainOk then ⟨some 1, [], false⟩
        else if ¬ env.fastchessOk then ⟨some 1, [], false⟩
        else if env.remoteSri = none then ⟨some 1, [], false⟩
        else mainLoop env.fleet ⟨true, INITIAL_RETRY_TIME⟩ its

/-- Closed form of the backoff recurrence `delay ← min 900 (2 * delay)`
started at 15 (worker.py lines 1569, 1597). -/
theorem delay_closed_form (j : Nat) :
    (fun d => min MAX_RETRY_TIME (2 * d))^[j] INITIAL_RETRY_TIME =
      min MAX_RETRY_TIME (INITIAL_RETRY_TIME * 2 ^ j) := by
  induction j with
  | zero => simp [INITIAL_RETRY_TIME, MAX_RETRY_TIME]
  | succ j ih =>
      rw [Function.iterate_succ_apply', ih]
      simp only [MAX_RETRY_TIME, INITIAL_RETRY_TIME, pow_succ]
      have h2 : (15 : Nat) * (2 ^ j * 2) = 2 * (15 * 2 ^ j) := by ring
      rw [h2]
      generalize (15 : Nat) * 2 ^ j = m
      omega

/-- One failed non-fleet iteration: sleep the current delay, double it
capped at `MAX_RETRY_TIME` (worker.py lines 1589-1597). -/
theorem mainLoop_fail_step (d : Nat) (rest : List IterInput) :
    mainLoop false ⟨true, d⟩ (⟨false, false, false⟩ :: rest) =
      ⟨(mainLoop false ⟨true, min MAX_RETRY_TIME (2 * d)⟩ rest).exitCode,
        d :: (mainLoop false ⟨true, min MAX_RETRY_TIME (2 * d)⟩ rest).slept,
        (mainLoop false ⟨true, min MAX_RETRY_TIME (2 * d)⟩ rest).sentinelStop⟩ :=
  rfl

/-- In a run of consecutive failed iterations (no fleet mode), the
successive slept delays iterate `min 900 (2 * ·)` from the entry delay. -/
theorem mainLoop_all_fail_slept (n : Nat) (d : Nat) :
    (mainLoop false ⟨true, d⟩ (List.replicate n ⟨false, false, false⟩)).slept =
      (List.range n).map
        (fun j => (fun x => min MAX_RETRY_TIME (2 * x))^[j] d) := by
  induction n generalizing d with
  | zero => rfl
  | succ n ih =>
      rw [List.replicate_succ, mainLoop_fail_step, List.range_succ_eq_map]
      dsimp only
      rw [ih]
      simp only [List.map_cons, List.map_map, Function.iterate_zero_apply,
        List.cons.injEq, true_and]
      apply List.map_congr_left
      intro j _
      simp [Function.comp, Function.iterate_succ_apply]

/-- C2: starting from a reset (`delay = INITIAL_RETRY_TIME`), the delay
slept before the k-th consecutive failed iteration is
`min MAX_RETRY_TIME (INITIAL_RETRY_TIME * 2 ^ (k-1))` (worker.py lines
1569, 1595-1597), and any successful iteration resets the delay to
`INITIAL_RETRY_TIME` (line 1599). -/
theorem c2_backoff (n k : Nat) (hk1 : 1 ≤ k) (hkn : k ≤ n) :
    ((mainLoop false ⟨true, INITIAL_RETRY_TIME⟩
        (List.replicate n ⟨false, false, false⟩)).slept)[k - 1]? =
      some (min MAX_RETRY_TIME (INITIAL_RETRY_TIME * 2 ^ (k - 1))) ∧
    (∀ (fleet : Bool) (d : Nat) (it : IterInput) (rest : List IterInput),
      it.success = true → it.clearsAlive = false → it.fishExitPresent = false →
      mainLoop fleet ⟨true, d⟩ (it :: rest) =
        mainLoop fleet ⟨true, INITIAL_RETRY_TIME⟩ rest) := by
  constructor
  · rw [mainLoop_all_fail_slept]
    rw [List.getElem?_map, List.getElem?_range (by omega : k - 1 < n)]
    simp [delay_closed_form]
  · intro fleet d it rest hs hc hf
    obtain ⟨s, c, f⟩ := it
    dsimp only at hs hc hf
    subst hs; subst hc; subst hf
    rfl

/-- C2 witness: with two consecutive failures the second sleep is 30
seconds, and a successful iteration from delay 77 resets to 15. -/
theorem c2_backoff_witness :
    (1 ≤ 2 ∧ 2 ≤ 2) ∧
    ((mainLoop false ⟨true, INITIAL_RETRY_TIME⟩
        (List.replicate 2 ⟨false, false, false⟩)).slept)[1]? =
      some (min MAX_RETRY_TIME (INITIAL_RETRY_TIME * 2 ^ 1)) ∧
    mainLoop false ⟨true, 77⟩ (⟨true, false, false⟩ :: []) =
      mainLoop false ⟨true, INITIAL_RETRY_TIME⟩ [] :=
  ⟨⟨by decide, by decide⟩,
   (c2_backoff 2 2 (by decide) (by decide)).1,
   (c2_backoff 2 2 (by decide) (by decide)).2 false 77 ⟨true, false, false⟩ []
     rfl rfl rfl⟩

/-- From a live state, the main loop's exit code is 0 exactly when it
stopped via the `fish.exit` sentinel. -/
theorem mainLoop_zero_iff_sentinel (fleet : Bool) (d : Nat)
    (its : List IterInput) :
    (mainLoop fleet ⟨true, d⟩ its).exitCode = some 0 ↔
      (mainLoop fleet ⟨true, d⟩ its).sentinelStop = true := by
  induction its generalizing d with
  | nil => simp [mainLoop]
  | cons it rest ih =>
      unfold mainLoop
      by_cases h1 : it.fishExitPresent
      · simp [h1]
      · by_cases h2 : it.clearsAlive
        · simp [h1, h2]
        · by_cases h3 : it.success
          · simpa [h1, h2, h3] using ih INITIAL_RETRY_TIME
          · cases fleet
            · simpa [h1, h2, h3] using ih (min MAX_RETRY_TIME (2 * d))
            · simp [h1, h2, h3]

/-- C9 (counterexample): invoked with `only_config = true` (`-w`), the
worker writes its configuration and returns 0 (worker.py lines
1484-1485) although it never stopped via the `fish.exit` sentinel —
refuting "exit code 0 only via fish.exit". -/
theorem c9_counterexample :
    (worker_run ⟨false, true, true, false, some (some true), true, true,
        some true⟩ []).exitCode = some 0 ∧
    (worker_run ⟨false, true, true, false, some (some true), true, true,
        some true⟩ []).sentinelStop = false := by
  decide

/-- C9 (amended): the worker exits 0 iff it stopped because the
`fish.exit` sentinel was present at the end of an iteration (the
sentinel is then deleted), or it was invoked in write-config-only mode
(`only_config`); every other termination — failed fleet iteration,
signal, startup failure, exhausted lock — exits 1 (worker.py lines
1424-1611). -/
theorem c9_amended (env : StartupEnv) (its : List IterInput) :
    (worker_run env its).exitCode = some 0 ↔
      ((worker_run env its).sentinelStop = true ∨
        (env.lockBlocked = false ∧ env.optionsOk = true ∧
          env.onlyConfig = true)) := by
  obtain ⟨lb, ok, oc, fl, vc, tc, fc, rs⟩ := env
  rcases vc with _ | v
  · cases lb <;> cases ok <;> cases oc <;> cases tc <;> cases fc <;>
      rcases rs with _ | b <;> simp [worker_run]
  · by_cases hv : v = some false <;>
      cases lb <;> cases ok <;> cases oc <;> cases tc <;> cases fc <;>
        rcases rs with _ | b <;>
          simp [worker_run, hv, mainLoop_zero_iff_sentinel]

/-- A value stored in an sri manifest: the `__version` entry holds an
integer, file entries hold hash strings (worker.py lines 230-241). -/
inductive SriVal where
  | int (n : Int)
  | str (s : String)
deriving DecidableEq

/-- An sri manifest: a JSON dictionary, modelled as an association list
with `List.lookup` as dictionary access. -/
abbrev Sri := List (String × SriVal)

/-- The per-file half of `generate_sri` (worker.py lines 234-240):
`diskHash f` is `text_hash(install_dir / f)` (`none` models an
exception); the first failure aborts with `None`. -/
def generate_sri_files (diskHash : String → Option String) :
    List String → Option Sri
  | [] => some []
  | f :: rest =>
      match diskHash f, generate_sri_files diskHash rest with
      | some h, some r => some ((f, .str h) :: r)
      | _, _ => none

/-- `generate_sri` (worker.py lines 230-241): the `__version` entry
followed by one hash entry per file of `FILE_LIST`. -/
def generate_sri (diskHash : String → Option String) : Option Sri :=
  (generate_sri_files diskHash FILE_LIST).map
    (fun l => ("__version", .int (WORKER_VERSION : Int)) :: l)

/-- `verify_sri` (worker.py lines 253-280): recompute the local manifest
and compare every entry except `__version` against the parsed contents
of `sri.txt` (`stored = none` models a read/parse failure or a non-dict
file). -/
def verify_sri (diskHash : String → Option String) (stored : Option Sri) :
    Bool :=
  match generate_sri diskHash with
  | none => false
  | some sri =>
      match stored with
      | none => false
      | some sri' =>
          sri.all (fun kv =>
            kv.1 == "__version" || sri'.lookup kv.1 == some kv.2)

/-- `verify_remote_sri` (worker.py lines 290-313): `remote = none`
models a download failure (returns the unknown result `none`); a remote
`__version` different from `WORKER_VERSION` skips the comparison; else
every remote entry must occur unchanged in the freshly generated local
manifest.  `Except.error` models the uncaught `TypeError` the Python
code would raise if `generate_sri` returned `None` while the versions
match. -/
def verify_remote_sri (diskHash : String → Option String)
    (remote : Option Sri) : Except Unit (Option Bool) :=
  match remote with
  | none => .ok none
  | some r =>
      if (r.lookup "__version").getD (.int (-1)) ≠
          .int (WORKER_VERSION : Int) then .ok (some true)
      else
        match generate_sri diskHash with
        | none => .error ()
        | some sri =>
            .ok (some (! r.any (fun kv => ! (sri.lookup kv.1 == some kv.2))))

/-- C7: `verify_sri` returns true iff for every file of `FILE_LIST` the
content hash of the file on disk equals the entry stored in `sri.txt`,
the `__version` entry being excluded from the comparison (worker.py
lines 230-241 and 253-280). -/
theorem c7_verify_local (diskHash : String → Option String) (stored : Sri) :
    verify_sri diskHash (some stored) = true ↔
      ∀ f ∈ FILE_LIST, ∃ h, diskHash f = some h ∧
        stored.lookup f = some (.str h) := by
  rcases h1 : diskHash "updater.py" with _ | v1 <;>
    rcases h2 : diskHash "worker.py" with _ | v2 <;>
      rcases h3 : diskHash "games.py" with _ | v3 <;>
        simp [verify_sri, generate_sri, generate_sri_files, FILE_LIST,
          h1, h2, h3]

/-- C7 witness: a disk whose hashes all match the stored manifest. -/
theorem c7_verify_local_witness :
    verify_sri (fun f => some ("#" ++ f))
      (some [("updater.py", .str "#updater.py"),
             ("worker.py", .str "#worker.py"),
             ("games.py", .str "#games.py")]) = true :=
  (c7_verify_local _ _).mpr (by decide)

/-- C6: remote integrity verification returns "unmodified" without any
hash comparison when the remote `__version` differs from
`WORKER_VERSION`; with matching versions it returns tainted (`false`)
when some remote entry is absent from or differs from the locally
generated manifest; a download failure yields the unknown result
(`none`), upon which `worker()` returns exit code 1 (worker.py lines
290-313 and 1519-1522). -/
theorem c6_verify_remote :
    (∀ (diskHash : String → Option String) (r : Sri),
      (r.lookup "__version").getD (.int (-1)) ≠ .int (WORKER_VERSION : Int) →
      verify_remote_sri diskHash (some r) = .ok (some true)) ∧
    (∀ (diskHash : String → Option String) (r : Sri) (sri : Sri),
      (r.lookup "__version").getD (.int (-1)) = .int (WORKER_VERSION : Int) →
      generate_sri diskHash = some sri →
      (∃ kv ∈ r, sri.lookup kv.1 ≠ some kv.2) →
      verify_remote_sri diskHash (some r) = .ok (some false)) ∧
    (∀ diskHash : String → Option String,
      verify_remote_sri diskHash none = .ok none) ∧
    (∀ (env : StartupEnv) (its : List IterInput) (v : Option Bool),
      env.lockBlocked = false → env.optionsOk = true → env.onlyConfig = false →
      env.versionCheck = some v → v ≠ some false → env.toolchainOk = true →
      env.fastchessOk = true → env.remoteSri = none →
      (worker_run env its).exitCode = some 1) := by
  refine ⟨?_, ?_, fun _ => rfl, ?_⟩
  · intro dh r h
    simp [verify_remote_sri, h]
  · intro dh r sri hver hgen ⟨kv, hmem, hne⟩
    have hany : r.any (fun kv => ! (sri.lookup kv.1 == some kv.2)) = true :=
      List.any_eq_true.mpr ⟨kv, hmem, by simpa using hne⟩
    rw [verify_remote_sri, if_neg (by simp [hver]), hgen]
    dsimp only
    rw [hany]
    rfl
  · intro env its v h1 h2 h3 h4 h5 h6 h7 h8
    obtain ⟨lb, ok, oc, fl, vc, tc, fc, rs⟩ := env
    dsimp only at h1 h2 h3 h4 h6 h7 h8
    subst h1; subst h2; subst h3; subst h4; subst h6; subst h7; subst h8
    simp [worker_run, h5]

/-- C6 witness: concrete instances of the four conjuncts of
`c6_verify_remote`. -/
theorem c6_verify_remote_witness :
    verify_remote_sri (fun _ => none) (some []) = .ok (some true) ∧
    verify_remote_sri (fun _ => some "h")
      (some [("__version", .int 286), ("worker.py", .str "X")]) =
        .ok (some false) ∧
    verify_remote_sri (fun _ => none) none = .ok none ∧
    (worker_run ⟨false, true, false, false, some none, true, true, none⟩
      []).exitCode = some 1 :=
  ⟨c6_verify_remote.1 _ [] (by decide),
   c6_verify_remote.2.1 _ _
     [("__version", .int 286), ("updater.py", .str "h"),
      ("worker.py", .str "h"), ("games.py", .str "h")]
     (by decide) (by decide)
     ⟨("worker.py", .str "X"), by decide, by decide⟩,
   c6_verify_remote.2.2.1 _,
   c6_verify_remote.2.2.2 _ [] none rfl rfl rfl rfl (by decide) rfl rfl rfl⟩

/-- The program points that read or write `current_state["alive"]`, one
constructor per site: the signal handler `on_sigint` (worker.py line
884), the failed startup version check inside `fetch_and_handle_task`
(line 1257), the exception dispatch after `run_games` (lines 1337-1351,
via `handle_run_result`), a heartbeat tick (lines 1168-1191, which only
reads `alive`), the `fish.exit` stop (line 1583), the fleet-mode stop
(line 1591), and any step that does not touch the flag. -/
inductive AliveStep where
  | sigint
  | versionFail
  | runResult (remote : String) (r : RunResult)
  | hbTick (lastUpdated : Nat) (run : Option String) (taskId : Option Nat)
      (now : Nat) (resp : Option BeatResp)
  | fishExit
  | fleetFail
  | untouched

/-- The effect of each step on the shared `alive` flag, taken from the
corresponding embedded function. -/
def applyAlive : AliveStep → Bool → Bool
  | .sigint, _ => false
  | .versionFail, _ => false
  | .runResult remote r, a => (handle_run_result remote a r).alive
  | .hbTick last run task now resp, a =>
      ((hb_tick ⟨a, last, run, task⟩ now resp).1).alive
  | .fishExit, _ => false
  | .fleetFail, _ => false
  | .untouched, a => a

/-- Number of true→false transitions of `alive` along a trace of steps. -/
def fallCount : Bool → List AliveStep → Nat
  | _, [] => 0
  | a, s :: rest =>
      (if a = true ∧ applyAlive s a = false then 1 else 0) +
        fallCount (applyAlive s a) rest

/-- No step can revive the flag: from `false` it stays `false`. -/
theorem applyAlive_false (s : AliveStep) : applyAlive s false = false := by
  cases s with
  | runResult remote r => cases r <;> rfl
  | hbTick last run task now resp =>
      exact hb_tick_alive ⟨false, last, run, task⟩ now resp
  | _ => rfl

/-- A trace that starts with `alive = false` never transitions again. -/
theorem fallCount_false (steps : List AliveStep) : fallCount false steps = 0 := by
  induction steps with
  | nil => rfl
  | cons s rest ih => simp [fallCount, applyAlive_false, ih]

/-- C8: `alive` starts true and transitions true→false at most once per
process — no step of the main loop, the heartbeat loop, or the signal
handler ever sets it back to true (worker.py lines 884, 1257, 1337-1351,
1168-1191, 1583, 1591). -/
theorem c8_alive_monotone :
    (∀ (s : AliveStep), applyAlive s false = false) ∧
    (∀ (steps : List AliveStep), fallCount true steps ≤ 1) := by
  refine ⟨applyAlive_false, ?_⟩
  intro steps
  induction steps with
  | nil => simp [fallCount]
  | cons s rest ih =>
      rcases h : applyAlive s true with _ | _
      · simp [fallCount, h, fallCount_false]
      · simpa [fallCount, h] using ih

/-- The reflected CRC-32 polynomial used by `zlib.crc32`. -/
def CRC32_POLY : Nat := 0xEDB88320

/-- One bit step of the reflected CRC-32. -/
def crcBit (c : Nat) : Nat :=
  if c % 2 = 1 then (c / 2) ^^^ CRC32_POLY else c / 2

/-- One byte step of the reflected CRC-32. -/
def crcByte (c b : Nat) : Nat := crcBit^[8] (c ^^^ b % 256)

/-- `zlib.crc32` over a byte sequence (standard reflected CRC-32,
initial value and final xor `0xFFFFFFFF`); a library primitive of the
Python runtime (used at worker.py line 1401). -/
def crc32 (bs : List Nat) : Nat :=
  (bs.foldl crcByte 0xFFFFFFFF) ^^^ 0xFFFFFFFF

/-- A lowercase hexadecimal digit character. -/
def hexDigit (d : Nat) : Char :=
  if d < 10 then Char.ofNat (48 + d) else Char.ofNat (87 + d)

/-- Hex digits of `n`, most significant first; `fuel ≥ n` suffices. -/
def hexDigitsGo : Nat → Nat → List Char
  | _, 0 => []
  | 0, _ + 1 => []
  | fuel + 1, n + 1 =>
      hexDigitsGo fuel ((n + 1) / 16) ++ [hexDigit ((n + 1) % 16)]

/-- Hex digits of a positive `n`, most significant first. -/
def hexDigits (n : Nat) : List Char := hexDigitsGo n n

/-- The digit string of Python's `hex(n)` (a bare `"0"` for zero). -/
def pyHexDigits (n : Nat) : List Char :=
  if n = 0 then ['0'] else hexDigits n

/-- Python's `hex` on a nonnegative int: `"0x"` followed by lowercase
hex digits (used at worker.py line 1401). -/
def pyHex (n : Nat) : String := String.mk ('0' :: 'x' :: pyHexDigits n)

/-- Numeric value of a hex digit character. -/
def hexVal (c : Char) : Nat :=
  if 97 ≤ c.toNat then c.toNat - 87 else c.toNat - 48

/-- Value of a most-significant-first hex digit list. -/
def natFromHex (ds : List Char) : Nat :=
  ds.foldl (fun a c => 16 * a + hexVal c) 0

theorem hexVal_hexDigit : ∀ d < 16, hexVal (hexDigit d) = d := by decide

theorem natFromHex_append (l : List Char) (c : Char) :
    natFromHex (l ++ [c]) = 16 * natFromHex l + hexVal c := by
  simp [natFromHex, List.foldl_append]

theorem natFromHex_hexDigitsGo (fuel : Nat) :
    ∀ n ≤ fuel, natFromHex (hexDigitsGo fuel n) = n := by
  induction fuel with
  | zero =>
      intro n hn
      obtain rfl : n = 0 := by omega
      rfl
  | succ fuel ih =>
      intro n hn
      match n with
      | 0 => rfl
      | m + 1 =>
          have hdiv : (m + 1) / 16 < m + 1 := Nat.div_lt_self (by omega) (by omega)
          rw [hexDigitsGo, natFromHex_append, ih ((m + 1) / 16) (by omega),
            hexVal_hexDigit _ (Nat.mod_lt _ (by omega))]
          have := Nat.div_add_mod (m + 1) 16
          omega

theorem natFromHex_pyHexDigits (n : Nat) :
    natFromHex (pyHexDigits n) = n := by
  by_cases hn : n = 0
  · subst hn; rfl
  · simp only [pyHexDigits, hn, if_false]
    exact natFromHex_hexDigitsGo n n le_rfl

/-- Python's `hex` is injective on nonnegative ints, so comparing hex
strings compares the underlying CRC values. -/
theorem pyHex_inj (a b : Nat) (h : pyHex a = pyHex b) : a = b := by
  have hd : pyHexDigits a = pyHexDigits b := by
    have := congrArg String.data h
    simpa [pyHex] using this
  rw [← natFromHex_pyHexDigits a, ← natFromHex_pyHexDigits b, hd]

/-- Inputs to the post-task PGN phase of `fetch_and_handle_task`
(worker.py lines 1385-1418): `pgn_file["name"]` and its on-disk
existence and content, `pgn_file["CRC"]` as recorded by the runner
(`games.py` stores the `hex()` of the running CRC; modelled from the
spec since `games.py` is outside the embedded source), whether the run
is SPSA, and the run/task identifiers. -/
structure PgnInput where
  fileName : Option String
  fileExists : Bool
  fileBytes : List Nat
  crcExpected : Option String
  spsaRun : Bool
  runId : String
  taskId : Nat

/-- Observable outcome of the PGN phase: whether `/api/upload_pgn` was
reached, the inner gzip member name used, and whether the PGN file was
deleted. -/
structure PgnResult where
  uploaded : Bool
  gzipName : Option String
  deleted : Bool
deriving DecidableEq

/-- The PGN upload phase (worker.py lines 1385-1418): bail out when the
file is unnamed, missing or empty; otherwise, unless the run is SPSA,
compare `hex(zlib.crc32(file_content))` with the recorded CRC and
upload (gzip member `{run_id}-{task_id}.pgn.gz`, base64) only on
equality; the file is deleted in every case that reaches the unlink. -/
def pgn_upload_phase (inp : PgnInput) : PgnResult :=
  if inp.fileName = none ∨ inp.fileExists = false ∨ inp.fileBytes.length = 0 then
    ⟨false, none, false⟩
  else if inp.spsaRun then ⟨false, none, true⟩
  else if inp.crcExpected = some (pyHex (crc32 inp.fileBytes)) then
    ⟨true, some (inp.runId ++ "-" ++ toString inp.taskId ++ ".pgn.gz"), true⟩
  else ⟨false, none, true⟩

/-- C4: for a named, present, nonempty PGN file of a non-SPSA run whose
recorded CRC is `hex(v)`, the upload to `/api/upload_pgn` proceeds iff
the CRC-32 of the on-disk bytes equals `v`; the PGN file is deleted in
either case; and an upload uses the inner gzip member name
`{run_id}-{task_id}.pgn.gz` (worker.py lines 1385-1418). -/
theorem c4_pgn_upload (inp : PgnInput) (v : Nat)
    (h1 : inp.fileName ≠ none) (h2 : inp.fileExists = true)
    (h3 : inp.fileBytes.length ≠ 0) (h4 : inp.spsaRun = false)
    (h5 : inp.crcExpected = some (pyHex v)) :
    ((pgn_upload_phase inp).uploaded = true ↔ crc32 inp.fileBytes = v) ∧
    (pgn_upload_phase inp).deleted = true ∧
    ((pgn_upload_phase inp).uploaded = true →
      (pgn_upload_phase inp).gzipName =
        some (inp.runId ++ "-" ++ toString inp.taskId ++ ".pgn.gz")) := by
  by_cases hc : inp.crcExpected = some (pyHex (crc32 inp.fileBytes))
  · have hv : crc32 inp.fileBytes = v :=
      (pyHex_inj _ _ (Option.some.inj (h5.symm.trans hc))).symm
    simp [pgn_upload_phase, h1, h2, h3, h4, hc, hv]
  · have hv : crc32 inp.fileBytes ≠ v := by
      intro he
      exact hc (he ▸ h5)
    simp [pgn_upload_phase, h1, h2, h3, h4, hc, hv]

/-- C4 witness: a one-byte PGN whose recorded CRC matches. -/
theorem c4_pgn_upload_witness :
    ((pgn_upload_phase ⟨some "t.pgn", true, [0],
        some (pyHex (crc32 [0])), false, "R1", 3⟩).uploaded = true ↔
      crc32 [0] = crc32 [0]) ∧
    (pgn_upload_phase ⟨some "t.pgn", true, [0],
        some (pyHex (crc32 [0])), false, "R1", 3⟩).deleted = true ∧
    ((pgn_upload_phase ⟨some "t.pgn", true, [0],
        some (pyHex (crc32 [0])), false, "R1", 3⟩).uploaded = true →
      (pgn_upload_phase ⟨some "t.pgn", true, [0],
          some (pyHex (crc32 [0])), false, "R1", 3⟩).gzipName =
        some ("R1" ++ "-" ++ toString 3 ++ ".pgn.gz")) :=
  c4_pgn_upload _ (crc32 [0]) (by decide) rfl (by decide) rfl rfl

end Fishtest
